import Mathlib

/-!
Shallow embedding of the job-matching scoring engine of the cv-analyzer
backend (jobMatchingService: `calculateJobMatchScore`, its five sub-matchers
and the batch operation `getMatchedJobs`), together with proofs of the
spec-level properties of that engine.

Modelling conventions:
* JavaScript strings are Lean `String`s; `s.includes(t)` becomes
  `strIncludes s t` (list-infix containment), `s.toLowerCase()` becomes `lc`
  (ASCII case folding, exactly core `Char.toLower` applied pointwise).
* Possibly-absent (undefined) fields are `Option`s; the JS truthiness test on
  an optional string is `strTruthy` (false on `undefined` and on `""`).
* JS numbers are exact rationals `ℚ`; `Math.round` is `jsRound`
  (round half towards positive infinity, as in JavaScript); the one division
  that JavaScript lets produce `NaN` (the match-rate of an empty job
  collection) is modelled with an `Option ℤ` whose `none` stands for `NaN`.
* The process-wide job collection returned by `getAllJobs()` is passed to
  `getMatchedJobs` as an explicit list parameter, and the options object with
  its defaulted fields is the record `MatchOptions` (defaults in
  `defaultMatchOptions`).
* `Array.prototype.sort` with a numeric comparator (stable in the engines the
  backend runs on) is modelled as a stable sort (`List.insertionSort`) by the
  comparator's key, descending.
-/

/-- JavaScript `Math.round`: round half up (towards +∞). -/
def jsRound (q : ℚ) : ℤ := ⌊q + 1/2⌋

/-- JavaScript `String.prototype.toLowerCase` (ASCII case folding, pointwise
core `Char.toLower`). -/
def lc (s : String) : String := ⟨s.data.map Char.toLower⟩

/-- JavaScript `s.includes(sub)`: `sub` occurs contiguously inside `s`. -/
def strIncludes (s sub : String) : Bool := decide (sub.data <:+: s.data)

/-- JavaScript truthiness of a possibly-undefined string: `undefined` and the
empty string are falsy. -/
def strTruthy : Option String → Bool
  | none => false
  | some s => decide (s ≠ "")

/-- How a JS template literal prints a possibly-undefined string. -/
def jsStr (o : Option String) : String := o.getD "undefined"

/-- The fields of the user profile read by the matching engine. Fields the
engine guards with `|| []`, `?.` or `=== undefined` checks are `Option`s. -/
structure UserProfile where
  desiredPosition : Option String
  jobTypes : Option (List String)
  currentLocation : Option String
  preferredLocations : Option (List String)
  willingToRelocate : Bool
  remotePreference : Option String
  primarySkills : Option (List String)
  secondarySkills : Option (List String)
  experienceLevel : Option String
  yearsOfExperience : Option ℚ
deriving DecidableEq

/-- A job record as the engine reads it (`postedDate` as a numeric timestamp,
the value `new Date(job.postedDate).getTime()` sorts by). -/
structure Job where
  title : String
  company : String
  location : String
  type : String
  category : Option String
  description : Option String
  isRemote : Option Bool
  experienceLevel : Option String
  postedDate : ℤ
deriving DecidableEq

/-- The record each sub-matcher returns: `{score, match, reason?, issue?}`.
The JS field `match` (a reserved word in Lean) is named `isMatch`. -/
structure SubMatch where
  score : ℚ
  isMatch : Bool
  reason : Option String
  issue : Option String
deriving DecidableEq

/-- The skills matcher's result: `{score, reasons, matchedSkills}`. -/
structure SkillsMatch where
  score : ℚ
  reasons : List String
  matchedSkills : List String
deriving DecidableEq

/-- The aggregate result `{score, reasons, issues, suitable}` of
`calculateJobMatchScore`; `score` is an integer after `Math.round`. -/
structure MatchResult where
  score : ℤ
  reasons : List String
  issues : List String
  suitable : Bool
deriving DecidableEq

/-- The fixed category-group table of `calculateJobCategoryMatch`, in source
order (JS object insertion order). -/
def categoryGroups : List (String × List String) :=
  [("tech", ["frontend", "backend", "full stack", "fullstack", "software",
      "developer", "engineer", "devops", "mobile", "ios", "android", "react",
      "node", "python", "java", "web", "data scientist", "data analyst",
      "qa", "quality"]),
   ("design", ["designer", "ux", "ui", "graphic", "creative", "illustrator",
      "motion"]),
   ("finance", ["accountant", "finance", "financial", "audit", "payroll",
      "tax", "bookkeeper", "controller"]),
   ("hr", ["hr", "human resource", "recruiter", "recruitment",
      "talent acquisition", "talent"]),
   ("marketing", ["marketing", "seo", "ppc", "social media",
      "content marketing", "growth"]),
   ("sales", ["sales", "account manager", "business development", "bd"]),
   ("support", ["customer support", "customer service", "help desk",
      "technical support", "virtual assistant"]),
   ("management", ["project manager", "product manager", "scrum master",
      "team lead", "operations manager", "business analyst"])]

/-- The fixed category-compatibility table of `calculateJobCategoryMatch`. -/
def compatibleCategories : List (String × List String) :=
  [("tech", ["tech", "design", "management"]),
   ("design", ["design", "tech", "marketing"]),
   ("finance", ["finance"]),
   ("hr", ["hr"]),
   ("marketing", ["marketing", "design", "sales"]),
   ("sales", ["sales", "marketing"]),
   ("support", ["support"]),
   ("management", ["management", "tech"])]

/-- `calculateJobCategoryMatch(userProfile, job)`: hard filter excluding jobs
from a career field incompatible with the user's desired field. -/
def calculateJobCategoryMatch (p : UserProfile) (j : Job) : SubMatch :=
  let desiredPosition := lc (p.desiredPosition.getD "")
  let jobTypes := (p.jobTypes.getD []).map lc
  let jobTitle := lc j.title
  let jobType := lc j.type
  let jobCategory := lc (j.category.getD "")
  let userCategory : Option String :=
    (categoryGroups.find? (fun g =>
      g.2.any (fun kw => strIncludes desiredPosition kw
        || jobTypes.any (fun jt => strIncludes jt kw)))).map Prod.fst
  let jobCategoryGroup : Option String :=
    (categoryGroups.find? (fun g =>
      g.2.any (fun kw => strIncludes jobTitle kw || strIncludes jobType kw
        || strIncludes jobCategory kw))).map Prod.fst
  match userCategory, jobCategoryGroup with
  | some uc, some jc =>
    let compatible := (List.lookup uc compatibleCategories).getD [uc]
    if compatible.contains jc then
      if uc = jc then
        { score := 20, isMatch := true,
          reason := some (j.type ++ " position matches your career path"),
          issue := none }
      else
        { score := 10, isMatch := true,
          reason := some ("Related field: " ++ j.type), issue := none }
    else
      { score := 0, isMatch := false, reason := none,
        issue := some ("Job category (" ++ jc
          ++ ") doesn\x27t match your desired field (" ++ uc ++ ")") }
  | _, _ => { score := 10, isMatch := true, reason := some "", issue := none }

/-- `calculateLocationMatch(userProfile, job)`: location and remote-preference
compatibility, with two hard-filter branches and one soft mismatch. -/
def calculateLocationMatch (p : UserProfile) (j : Job) : SubMatch :=
  let jobLocation := lc j.location
  let currentLocation := p.currentLocation.map lc
  let preferredLocations := (p.preferredLocations.map (List.map lc)).getD []
  let rp := p.remotePreference
  let isRemoteJob := strIncludes jobLocation "remote"
    || strIncludes jobLocation "hybrid"
    || j.isRemote == some true
    || (match j.description with
        | some d => strIncludes (lc d) "remote"
        | none => false)
  let locationInPreferred :=
    preferredLocations.any (fun loc => strIncludes jobLocation loc)
  if rp == some "remote" && !isRemoteJob && !locationInPreferred then
    { score := 0, isMatch := false, reason := none,
      issue := some ("Job requires on-site presence in " ++ j.location
        ++ ", but you prefer remote work") }
  else if rp == some "onsite" && isRemoteJob
      && !(strIncludes jobLocation "hybrid") then
    { score := 10, isMatch := false,
      reason := some "Remote position (you prefer on-site)", issue := none }
  else if isRemoteJob && (rp == some "remote" || rp == some "flexible"
      || rp == some "hybrid") then
    { score := 25, isMatch := true,
      reason := some ("Remote position matching your " ++ jsStr rp
        ++ " preference"),
      issue := none }
  else if locationInPreferred then
    { score := 25, isMatch := true,
      reason := some ("Location " ++ j.location
        ++ " is in your preferred areas"),
      issue := none }
  else if currentLocation.elim false
      (fun c => (c != "") && strIncludes jobLocation c) then
    { score := 20, isMatch := true,
      reason := some ("Job is in your current city ("
        ++ jsStr p.currentLocation ++ ")"),
      issue := none }
  else if p.willingToRelocate then
    { score := 15, isMatch := true,
      reason :=
        some "⚠️ Outside preferred locations, but you\x27re open to relocation",
      issue := none }
  else
    { score := 0, isMatch := false, reason := none,
      issue := some ("Job location " ++ j.location
        ++ " doesn\x27t match your preferences ("
        ++ String.intercalate ", " preferredLocations ++ ")") }

/-- `calculateRemoteMatch(userProfile, job)`: rewards alignment of the remote
preference with the job's remote/hybrid nature; never hard-filters. -/
def calculateRemoteMatch (p : UserProfile) (j : Job) : SubMatch :=
  let rp := p.remotePreference
  let jobLocation := lc j.location
  let jobDescription := (j.description.map lc).getD ""
  let isRemoteJob := strIncludes jobLocation "remote"
    || strIncludes jobLocation "hybrid"
    || strIncludes jobDescription "remote"
    || j.isRemote == some true
  let isHybridJob := strIncludes jobLocation "hybrid"
    || strIncludes jobDescription "hybrid"
  if rp == some "remote" && isRemoteJob then
    { score := 20, isMatch := true, reason := some "🏠 Fully remote position",
      issue := none }
  else if rp == some "hybrid" && (isHybridJob || isRemoteJob) then
    { score := 20, isMatch := true,
      reason := some "🔄 Hybrid/flexible work arrangement", issue := none }
  else if rp == some "flexible" then
    { score := 15, isMatch := true,
      reason := some "✨ Flexible with work arrangement", issue := none }
  else if rp == some "onsite" && !isRemoteJob then
    { score := 20, isMatch := true,
      reason := some "🏢 On-site position as preferred", issue := none }
  else
    { score := 10, isMatch := false, reason := none, issue := none }

/-- The job text the skills matcher searches: lowered title, a space, lowered
description (empty when the description is missing). -/
def jobTextOf (j : Job) : String := lc j.title ++ " " ++ (j.description.map lc).getD ""

/-- The user's combined skill list: primary then secondary, case-folded. -/
def userSkillsOf (p : UserProfile) : List String :=
  ((p.primarySkills.getD []) ++ (p.secondarySkills.getD [])).map lc

/-- The skills the engine counts as matched: combined case-folded skills that
occur in the job text. -/
def matchedSkillsOf (p : UserProfile) (j : Job) : List String :=
  (userSkillsOf p).filter (fun skill => strIncludes (jobTextOf j) (lc skill))

/-- `calculateSkillsMatch(userProfile, job)`: fraction of the user's skills
occurring in the job text, scaled to at most 25 points; guarded against an
empty skill list. -/
def calculateSkillsMatch (p : UserProfile) (j : Job) : SkillsMatch :=
  let userSkills := userSkillsOf p
  let jobText := jobTextOf j
  let matchedSkills := matchedSkillsOf p j
  let primaryMatched := (p.primarySkills.getD []).filter
    (fun skill => strIncludes jobText (lc skill))
  let matchPercentage : ℚ :=
    if userSkills.length > 0 then
      ((matchedSkills.length : ℚ) / (userSkills.length : ℚ)) * 100
    else 0
  let score : ℚ := min 25 ((matchPercentage / 100) * 25)
  let reasons :=
    (if primaryMatched.length > 0 then
      [toString primaryMatched.length ++ " of your primary skills match: "
        ++ String.intercalate ", " (primaryMatched.take 3)]
     else [])
    ++ (if matchedSkills.length > primaryMatched.length then
      [toString (matchedSkills.length - primaryMatched.length)
        ++ " additional skills match"]
     else [])
  { score := score, reasons := reasons, matchedSkills := matchedSkills }

/-- The experience-level compatibility table, with the lenient default
`["mid", "senior"]` for an unrecognized (or missing) job level. -/
def acceptableLevelsFor (jobLevel : Option String) : List String :=
  match jobLevel with
  | some l =>
    (List.lookup l
      [("Internship", ["junior"]),
       ("Junior", ["junior", "mid"]),
       ("Mid", ["junior", "mid", "senior"]),
       ("Senior", ["mid", "senior", "lead"]),
       ("Lead", ["senior", "lead"])]).getD ["mid", "senior"]
  | none => ["mid", "senior"]

/-- `calculateExperienceMatch(userProfile, job)`: tier compatibility with
cautionary over/under-qualification cases. -/
def calculateExperienceMatch (p : UserProfile) (j : Job) : SubMatch :=
  let userLevel := p.experienceLevel
  let jobLevel := j.experienceLevel
  let acceptableLevels := acceptableLevelsFor jobLevel
  if (match userLevel with
      | some ul => acceptableLevels.contains ul
      | none => false) then
    { score := 15, isMatch := true,
      reason := some ("Experience level matches (" ++ jsStr jobLevel
        ++ " position, you\x27re " ++ jsStr userLevel ++ ")"),
      issue := none }
  else if userLevel == some "senior" && jobLevel == some "Junior" then
    { score := 5, isMatch := false,
      reason := some ("⚠️ You may be overqualified for this "
        ++ jsStr jobLevel ++ " position"),
      issue := none }
  else if userLevel == some "junior" && jobLevel == some "Senior" then
    { score := 5, isMatch := false,
      reason := some ("⚠️ This " ++ jsStr jobLevel
        ++ " position may require more experience"),
      issue := none }
  else
    { score := 10, isMatch := true, reason := some "", issue := none }

/-- `calculateJobTypeMatch(userProfile, job)`: functional-type affinity with
partial credit for Full Stack users on Frontend/Backend jobs. -/
def calculateJobTypeMatch (p : UserProfile) (j : Job) : SubMatch :=
  let userJobTypes := (p.jobTypes.getD []).map lc
  let jobType := lc j.type
  if userJobTypes.any (fun t => strIncludes jobType t || strIncludes t jobType) then
    { score := 10, isMatch := true,
      reason := some (j.type ++ " matches your interests"), issue := none }
  else if userJobTypes.contains "full stack"
      && (strIncludes jobType "frontend" || strIncludes jobType "backend") then
    { score := 8, isMatch := true,
      reason := some (j.type ++ " position (you\x27re Full Stack)"),
      issue := none }
  else
    { score := 5, isMatch := false, reason := none, issue := none }

/-- Steps 2-5 of the aggregator (remote, skills, experience, job type), run
after the two hard-filter gates: accumulates points and reasons onto the
category+location running sum and produces the final result. -/
def aggregateRest (p : UserProfile) (j : Job) (score1 : ℚ)
    (reasons1 : List String) : MatchResult :=
  let remoteScore := calculateRemoteMatch p j
  let score2 := score1 + remoteScore.score
  let reasons2 := reasons1
    ++ (if remoteScore.isMatch then [remoteScore.reason.getD ""] else [])
  let skillsScore := calculateSkillsMatch p j
  let score3 := score2 + skillsScore.score
  let reasons3 := reasons2
    ++ (if skillsScore.reasons.length > 0 then skillsScore.reasons else [])
  let experienceScore := calculateExperienceMatch p j
  let score4 := score3 + experienceScore.score
  let reasons4 := reasons3
    ++ (if experienceScore.isMatch then [experienceScore.reason.getD ""] else [])
  let jobTypeScore := calculateJobTypeMatch p j
  let score5 := score4 + jobTypeScore.score
  let reasons5 := reasons4
    ++ (if jobTypeScore.isMatch then [jobTypeScore.reason.getD ""] else [])
  { score := jsRound (min 100 score5), reasons := reasons5, issues := [],
    suitable := decide (40 ≤ score5) }

/-- `calculateJobMatchScore(userProfile, job)`: the aggregator. Category and
location act as hard filters (early return with score 0); the remaining
matchers only add points. -/
def calculateJobMatchScore (p : UserProfile) (j : Job) : MatchResult :=
  let categoryMatch := calculateJobCategoryMatch p j
  if !categoryMatch.isMatch then
    { score := 0, reasons := [], issues := [categoryMatch.issue.getD ""],
      suitable := false }
  else
    let score0 : ℚ := categoryMatch.score
    let reasons0 :=
      if strTruthy categoryMatch.reason then [categoryMatch.reason.getD ""]
      else []
    let locationScore := calculateLocationMatch p j
    let score1 := score0 + locationScore.score
    if locationScore.isMatch then
      aggregateRest p j score1 (reasons0 ++ [locationScore.reason.getD ""])
    else if strTruthy locationScore.issue then
      { score := 0, reasons := reasons0,
        issues := [locationScore.issue.getD ""], suitable := false }
    else
      aggregateRest p j score1 reasons0

/-- A job as `getMatchedJobs` returns it: a copy of the job (`...job` spread)
with the four match fields attached. -/
structure EnrichedJob where
  job : Job
  matchScore : ℤ
  matchReasons : List String
  matchIssues : List String
  suitable : Bool
deriving DecidableEq

/-- The `{minScore, maxResults, sortBy}` options of `getMatchedJobs`. -/
structure MatchOptions where
  minScore : ℤ
  maxResults : ℕ
  sortBy : String
deriving DecidableEq

/-- The defaults `{minScore = 40, maxResults = 50, sortBy = "score"}`. -/
def defaultMatchOptions : MatchOptions :=
  { minScore := 40, maxResults := 50, sortBy := "score" }

/-- Scoring one job for the batch operation: a fresh record carrying the job
and the `matchScore`/`matchReasons`/`matchIssues`/`suitable` fields. -/
def enrichJob (p : UserProfile) (j : Job) : EnrichedJob :=
  let m := calculateJobMatchScore p j
  { job := j, matchScore := m.score, matchReasons := m.reasons,
    matchIssues := m.issues, suitable := m.suitable }

/-- The batch operation's scored collection (`allJobs.map(...)`). -/
def scoredJobs (p : UserProfile) (jobs : List Job) : List EnrichedJob :=
  jobs.map (enrichJob p)

/-- The suitability filter of `getMatchedJobs`:
`job.suitable && job.matchScore >= minScore`. -/
def passesFilter (o : MatchOptions) (e : EnrichedJob) : Bool :=
  e.suitable && decide (o.minScore ≤ e.matchScore)

/-- The scored jobs that survive the filter, in collection order. -/
def passingJobs (p : UserProfile) (jobs : List Job) (o : MatchOptions) :
    List EnrichedJob :=
  (scoredJobs p jobs).filter (passesFilter o)

/-- The comparator `getMatchedJobs` sorts with, as a relation: descending
match score when `sortBy` is `"score"`, else descending posted date. -/
def sortRel (o : MatchOptions) (a b : EnrichedJob) : Prop :=
  if o.sortBy = "score" then b.matchScore ≤ a.matchScore
  else b.job.postedDate ≤ a.job.postedDate

/-- The stable descending sort of the batch operation. -/
def sortEnriched (o : MatchOptions) (l : List EnrichedJob) : List EnrichedJob :=
  if o.sortBy = "score" then
    l.insertionSort (fun a b => b.matchScore ≤ a.matchScore)
  else
    l.insertionSort (fun a b => b.job.postedDate ≤ a.job.postedDate)

/-- The returned batch record
`{jobs, totalMatches, totalJobs, matchRate}`. `matchRate : Option ℤ` models
the JS number that `Math.round((matches / totalJobs) * 100)` produces:
`none` is the `NaN` of the unguarded `0 / 0` on an empty collection. -/
structure MatchedJobsResult where
  jobs : List EnrichedJob
  totalMatches : ℕ
  totalJobs : ℕ
  matchRate : Option ℤ
deriving DecidableEq

/-- `Math.round((matches / total) * 100)` under JS number semantics: `NaN`
(modelled `none`) when `total = 0` (the numerator is 0 there too, so the JS
value is exactly `0/0 = NaN`). -/
def ratePercent (m total : ℕ) : Option ℤ :=
  if total = 0 then none
  else some (jsRound (((m : ℚ) / (total : ℚ)) * 100))

/-- `getMatchedJobs(userProfile, options)` with the `getAllJobs()` collection
as the explicit `jobs` parameter: score all, filter, sort, truncate, report.
Note the source computes `totalMatches` and `matchRate` from the
already-truncated list. -/
def getMatchedJobs (p : UserProfile) (jobs : List Job) (o : MatchOptions) :
    MatchedJobsResult :=
  let suitableJobs := passingJobs p jobs o
  let sorted := sortEnriched o suitableJobs
  let limited := sorted.take o.maxResults
  { jobs := limited, totalMatches := limited.length,
    totalJobs := jobs.length,
    matchRate := ratePercent limited.length jobs.length }

/-- The category reason list the aggregator accumulates before the location
step: the category reason when it is truthy (the lenient pass returns the
falsy `""`, which is not pushed). -/
def catReasons (p : UserProfile) (j : Job) : List String :=
  if strTruthy (calculateJobCategoryMatch p j).reason then
    [(calculateJobCategoryMatch p j).reason.getD ""]
  else []

/-- The raw (pre-round, pre-clamp) sum the aggregator reaches from the
running total `s1` after the remote, skills, experience and job-type steps. -/
def restTotal (p : UserProfile) (j : Job) (s1 : ℚ) : ℚ :=
  s1 + (calculateRemoteMatch p j).score + (calculateSkillsMatch p j).score
    + (calculateExperienceMatch p j).score + (calculateJobTypeMatch p j).score

/-- A profile with one more skill appended to the secondary-skill list. -/
def addSkill (p : UserProfile) (sk : String) : UserProfile :=
  { p with secondarySkills := some (p.secondarySkills.getD [] ++ [sk]) }

/-- Concrete test profile (the spec's Scenario A, lower-cased). -/
def pA : UserProfile :=
  { desiredPosition := some "frontend developer", jobTypes := some ["frontend"],
    currentLocation := some "bratislava",
    preferredLocations := some ["bratislava"],
    willingToRelocate := false, remotePreference := some "flexible",
    primarySkills := some ["react"], secondarySkills := some [],
    experienceLevel := some "mid", yearsOfExperience := some 3 }

/-- Concrete frontend job in the profile's preferred location. -/
def jA : Job :=
  { title := "frontend developer", company := "acme", location := "bratislava",
    type := "frontend", category := none, description := some "react",
    isRemote := none, experienceLevel := some "Mid", postedDate := 100 }

/-- A second suitable job (same scores as `jA`, later posted date). -/
def jB : Job :=
  { title := "frontend developer", company := "beta", location := "bratislava",
    type := "frontend", category := none, description := some "react",
    isRemote := none, experienceLevel := some "Mid", postedDate := 200 }

/-- Options truncating to a single result. -/
def opts1 : MatchOptions := { minScore := 40, maxResults := 1, sortBy := "score" }

/-- A profile that prefers on-site work (everything else absent). -/
def pOnsite : UserProfile :=
  { desiredPosition := none, jobTypes := none, currentLocation := none,
    preferredLocations := none, willingToRelocate := false,
    remotePreference := some "onsite", primarySkills := none,
    secondarySkills := none, experienceLevel := none,
    yearsOfExperience := none }

/-- A remote-only job. -/
def jRemote : Job :=
  { title := "clerk", company := "acme", location := "remote",
    type := "clerk", category := none, description := none,
    isRemote := none, experienceLevel := none, postedDate := 0 }

/-- The enriched record `getMatchedJobs pA [jA] _` returns for `jA`. -/
def eA : EnrichedJob := enrichJob pA jA

theorem string_data_append (s t : String) : (s ++ t).data = s.data ++ t.data := by
  cases s
  cases t
  rfl

theorem append_data_ne (s t : String) (h : s.data ≠ []) : (s ++ t).data ≠ [] := by
  rw [string_data_append]
  intro he
  exact h (List.append_eq_nil.mp he).1

theorem strTruthy_of_data_ne (s : String) (h : s.data ≠ []) :
    strTruthy (some s) = true := by
  simp only [strTruthy, decide_eq_true_eq]
  intro he
  apply h
  rw [he]

theorem strTruthy_exists {o : Option String} (h : strTruthy o = true) :
    ∃ s, o = some s ∧ s ≠ "" := by
  cases o with
  | none => simp [strTruthy] at h
  | some s =>
    refine ⟨s, rfl, ?_⟩
    simpa [strTruthy, decide_eq_true_eq] using h

theorem jsRound_intCast (n : ℤ) : jsRound (n : ℚ) = n := by
  unfold jsRound
  rw [Int.floor_int_add]
  norm_num

theorem jsRound_mono {q r : ℚ} (h : q ≤ r) : jsRound q ≤ jsRound r :=
  Int.floor_mono (by linarith)

theorem le_jsRound (n : ℤ) (q : ℚ) (h : (n : ℚ) ≤ q) : n ≤ jsRound q := by
  have hm := jsRound_mono h
  rwa [jsRound_intCast] at hm

theorem jsRound_le (n : ℤ) (q : ℚ) (h : q ≤ (n : ℚ)) : jsRound q ≤ n := by
  have hm := jsRound_mono h
  rwa [jsRound_intCast] at hm

theorem char_toNat_ofNat_valid (n : ℕ) (h : n.isValidChar) :
    (Char.ofNat n).toNat = n := by
  unfold Char.ofNat
  rw [dif_pos h]
  rfl

theorem toLower_eq_self_of (d : Char) (hd : ¬(d.toNat ≥ 65 ∧ d.toNat ≤ 90)) :
    d.toLower = d := by
  simp only [Char.toLower]
  rw [if_neg hd]

theorem toLower_eq_ofNat (d : Char) (hd : d.toNat ≥ 65 ∧ d.toNat ≤ 90) :
    d.toLower = Char.ofNat (d.toNat + 32) := by
  simp only [Char.toLower]
  rw [if_pos hd]

theorem char_toLower_idem (c : Char) : c.toLower.toLower = c.toLower := by
  by_cases h : c.toNat ≥ 65 ∧ c.toNat ≤ 90
  · have hv : Nat.isValidChar (c.toNat + 32) := Or.inl (by omega)
    rw [toLower_eq_ofNat c h]
    apply toLower_eq_self_of
    rw [char_toNat_ofNat_valid _ hv]
    omega
  · rw [toLower_eq_self_of c h]
    exact toLower_eq_self_of c h

theorem lc_idem (s : String) : lc (lc s) = lc s := by
  unfold lc
  refine congrArg String.mk ?_
  show (s.data.map Char.toLower).map Char.toLower = s.data.map Char.toLower
  rw [List.map_map]
  exact List.map_congr_left (fun c _ => char_toLower_idem c)

theorem locationMatch_cases (p : UserProfile) (j : Job) :
    (∃ s, calculateLocationMatch p j =
        { score := 0, isMatch := false, reason := none, issue := some s } ∧ s.data ≠ [])
  ∨ calculateLocationMatch p j =
      { score := 10, isMatch := false,
        reason := some "Remote position (you prefer on-site)", issue := none }
  ∨ (∃ r, calculateLocationMatch p j =
      { score := 25, isMatch := true, reason := some r, issue := none })
  ∨ (∃ r, calculateLocationMatch p j =
      { score := 20, isMatch := true, reason := some r, issue := none })
  ∨ (∃ r, calculateLocationMatch p j =
      { score := 15, isMatch := true, reason := some r, issue := none }) := by
  simp only [calculateLocationMatch]
  split
  · exact Or.inl ⟨_, rfl, append_data_ne _ _ (append_data_ne _ _ (by decide))⟩
  · split
    · exact Or.inr (Or.inl rfl)
    · split
      · exact Or.inr (Or.inr (Or.inl ⟨_, rfl⟩))
      · split
        · exact Or.inr (Or.inr (Or.inl ⟨_, rfl⟩))
        · split
          · exact Or.inr (Or.inr (Or.inr (Or.inl ⟨_, rfl⟩)))
          · split
            · exact Or.inr (Or.inr (Or.inr (Or.inr ⟨_, rfl⟩)))
            · exact Or.inl ⟨_, rfl, append_data_ne _ _ (append_data_ne _ _
                (append_data_ne _ _ (append_data_ne _ _ (by decide))))⟩

theorem categoryMatch_cases (p : UserProfile) (j : Job) :
    (∃ s, calculateJobCategoryMatch p j =
        { score := 0, isMatch := false, reason := none, issue := some s } ∧ s.data ≠ [])
  ∨ (∃ r, calculateJobCategoryMatch p j =
        { score := 20, isMatch := true, reason := some r, issue := none })
  ∨ (∃ r, calculateJobCategoryMatch p j =
        { score := 10, isMatch := true, reason := some r, issue := none }) := by
  simp only [calculateJobCategoryMatch]
  split
  · split
    · split
      · exact Or.inr (Or.inl ⟨_, rfl⟩)
      · exact Or.inr (Or.inr ⟨_, rfl⟩)
    · exact Or.inl ⟨_, rfl, append_data_ne _ _ (append_data_ne _ _
        (append_data_ne _ _ (append_data_ne _ _ (by decide))))⟩
  · exact Or.inr (Or.inr ⟨_, rfl⟩)

theorem remoteMatch_cases (p : UserProfile) (j : Job) :
    (∃ r, calculateRemoteMatch p j =
        { score := 20, isMatch := true, reason := some r, issue := none })
  ∨ calculateRemoteMatch p j =
      { score := 15, isMatch := true,
        reason := some "✨ Flexible with work arrangement", issue := none }
  ∨ calculateRemoteMatch p j =
      { score := 10, isMatch := false, reason := none, issue := none } := by
  simp only [calculateRemoteMatch]
  split
  · exact Or.inl ⟨_, rfl⟩
  · split
    · exact Or.inl ⟨_, rfl⟩
    · split
      · exact Or.inr (Or.inl rfl)
      · split
        · exact Or.inl ⟨_, rfl⟩
        · exact Or.inr (Or.inr rfl)

theorem experienceMatch_cases (p : UserProfile) (j : Job) :
    (∃ r, calculateExperienceMatch p j =
        { score := 15, isMatch := true, reason := some r, issue := none })
  ∨ (∃ r, calculateExperienceMatch p j =
        { score := 5, isMatch := false, reason := some r, issue := none })
  ∨ calculateExperienceMatch p j =
      { score := 10, isMatch := true, reason := some "", issue := none } := by
  simp only [calculateExperienceMatch]
  split
  · exact Or.inl ⟨_, rfl⟩
  · split
    · exact Or.inr (Or.inl ⟨_, rfl⟩)
    · split
      · exact Or.inr (Or.inl ⟨_, rfl⟩)
      · exact Or.inr (Or.inr rfl)

theorem jobTypeMatch_cases (p : UserProfile) (j : Job) :
    (∃ r, calculateJobTypeMatch p j =
        { score := 10, isMatch := true, reason := some r, issue := none })
  ∨ (∃ r, calculateJobTypeMatch p j =
        { score := 8, isMatch := true, reason := some r, issue := none })
  ∨ calculateJobTypeMatch p j =
      { score := 5, isMatch := false, reason := none, issue := none } := by
  simp only [calculateJobTypeMatch]
  split
  · exact Or.inl ⟨_, rfl⟩
  · split
    · exact Or.inr (Or.inl ⟨_, rfl⟩)
    · exact Or.inr (Or.inr rfl)

theorem categoryMatch_score_lb (p : UserProfile) (j : Job)
    (h : (calculateJobCategoryMatch p j).isMatch = true) :
    10 ≤ (calculateJobCategoryMatch p j).score := by
  rcases categoryMatch_cases p j with ⟨s, hc, hs⟩ | ⟨r, hc⟩ | ⟨r, hc⟩
  · rw [hc] at h
    exact absurd h (by simp)
  · rw [hc]
    norm_num
  · rw [hc]

theorem categoryMatch_score_nonneg (p : UserProfile) (j : Job) :
    0 ≤ (calculateJobCategoryMatch p j).score := by
  rcases categoryMatch_cases p j with ⟨s, hc, hs⟩ | ⟨r, hc⟩ | ⟨r, hc⟩ <;>
    rw [hc] <;> norm_num

theorem locationMatch_continue_lb (p : UserProfile) (j : Job)
    (h : (calculateLocationMatch p j).isMatch = true
      ∨ strTruthy (calculateLocationMatch p j).issue = false) :
    10 ≤ (calculateLocationMatch p j).score := by
  rcases locationMatch_cases p j with ⟨s, hc, hs⟩ | hc | ⟨r, hc⟩ | ⟨r, hc⟩ | ⟨r, hc⟩
  · exfalso
    rcases h with h1 | h2
    · rw [hc] at h1
      simp at h1
    · rw [hc] at h2
      simp only at h2
      rw [strTruthy_of_data_ne s hs] at h2
      exact Bool.true_eq_false.mp h2
  · rw [hc]
  · rw [hc]
    norm_num
  · rw [hc]
    norm_num
  · rw [hc]
    norm_num

theorem locationMatch_score_nonneg (p : UserProfile) (j : Job) :
    0 ≤ (calculateLocationMatch p j).score := by
  rcases locationMatch_cases p j with ⟨s, hc, hs⟩ | hc | ⟨r, hc⟩ | ⟨r, hc⟩ | ⟨r, hc⟩ <;>
    rw [hc] <;> norm_num

theorem remoteMatch_score_lb (p : UserProfile) (j : Job) :
    10 ≤ (calculateRemoteMatch p j).score := by
  rcases remoteMatch_cases p j with ⟨r, hc⟩ | hc | hc <;> rw [hc] <;> norm_num

theorem experienceMatch_score_lb (p : UserProfile) (j : Job) :
    5 ≤ (calculateExperienceMatch p j).score := by
  rcases experienceMatch_cases p j with ⟨r, hc⟩ | ⟨r, hc⟩ | hc <;> rw [hc] <;> norm_num

theorem jobTypeMatch_score_lb (p : UserProfile) (j : Job) :
    5 ≤ (calculateJobTypeMatch p j).score := by
  rcases jobTypeMatch_cases p j with ⟨r, hc⟩ | ⟨r, hc⟩ | hc <;> rw [hc] <;> norm_num

theorem skillsScore_formula (p : UserProfile) (j : Job) :
    (calculateSkillsMatch p j).score =
      if (userSkillsOf p).length = 0 then 0
      else min 25 (((matchedSkillsOf p j).length : ℚ)
        / ((userSkillsOf p).length : ℚ) * 25) := by
  simp only [calculateSkillsMatch]
  by_cases h : (userSkillsOf p).length = 0
  · rw [if_pos h, if_neg (by omega)]
    norm_num
  · rw [if_neg h, if_pos (Nat.pos_of_ne_zero h)]
    congr 1
    ring

theorem skillsScore_nonneg (p : UserProfile) (j : Job) :
    0 ≤ (calculateSkillsMatch p j).score := by
  rw [skillsScore_formula]
  split
  · norm_num
  · refine le_min (by norm_num) ?_
    positivity

theorem aggregateRest_score (p : UserProfile) (j : Job) (s1 : ℚ)
    (r1 : List String) :
    (aggregateRest p j s1 r1).score = jsRound (min 100 (restTotal p j s1)) := rfl

theorem aggregateRest_suitable (p : UserProfile) (j : Job) (s1 : ℚ)
    (r1 : List String) :
    (aggregateRest p j s1 r1).suitable = decide (40 ≤ restTotal p j s1) := rfl

theorem aggregateRest_issues (p : UserProfile) (j : Job) (s1 : ℚ)
    (r1 : List String) :
    (aggregateRest p j s1 r1).issues = [] := rfl

theorem aggregateRest_reasons (p : UserProfile) (j : Job) (s1 : ℚ)
    (r1 : List String) :
    (aggregateRest p j s1 r1).reasons = r1
      ++ (if (calculateRemoteMatch p j).isMatch then
            [(calculateRemoteMatch p j).reason.getD ""] else [])
      ++ (if (calculateSkillsMatch p j).reasons.length > 0 then
            (calculateSkillsMatch p j).reasons else [])
      ++ (if (calculateExperienceMatch p j).isMatch then
            [(calculateExperienceMatch p j).reason.getD ""] else [])
      ++ (if (calculateJobTypeMatch p j).isMatch then
            [(calculateJobTypeMatch p j).reason.getD ""] else []) := rfl

theorem restTotal_lb (p : UserProfile) (j : Job) (s1 : ℚ) (h : 20 ≤ s1) :
    40 ≤ restTotal p j s1 := by
  unfold restTotal
  have h1 := remoteMatch_score_lb p j
  have h2 := skillsScore_nonneg p j
  have h3 := experienceMatch_score_lb p j
  have h4 := jobTypeMatch_score_lb p j
  linarith

theorem restTotal_nonneg (p : UserProfile) (j : Job) (s1 : ℚ) (h : 0 ≤ s1) :
    0 ≤ restTotal p j s1 := by
  unfold restTotal
  have h1 := remoteMatch_score_lb p j
  have h2 := skillsScore_nonneg p j
  have h3 := experienceMatch_score_lb p j
  have h4 := jobTypeMatch_score_lb p j
  linarith

theorem jobMatchScore_eq (p : UserProfile) (j : Job) :
    calculateJobMatchScore p j =
      if (calculateJobCategoryMatch p j).isMatch = false then
        { score := 0, reasons := [],
          issues := [(calculateJobCategoryMatch p j).issue.getD ""],
          suitable := false }
      else if (calculateLocationMatch p j).isMatch = true then
        aggregateRest p j
          ((calculateJobCategoryMatch p j).score + (calculateLocationMatch p j).score)
          (catReasons p j ++ [(calculateLocationMatch p j).reason.getD ""])
      else if strTruthy (calculateLocationMatch p j).issue = true then
        { score := 0, reasons := catReasons p j,
          issues := [(calculateLocationMatch p j).issue.getD ""],
          suitable := false }
      else
        aggregateRest p j
          ((calculateJobCategoryMatch p j).score + (calculateLocationMatch p j).score)
          (catReasons p j) := by
  by_cases h1 : (calculateJobCategoryMatch p j).isMatch = true
  · by_cases h2 : (calculateLocationMatch p j).isMatch = true
    · simp [calculateJobMatchScore, catReasons, h1, h2]
    · by_cases h3 : strTruthy (calculateLocationMatch p j).issue = true
      · simp [calculateJobMatchScore, catReasons, h1, h2, h3]
      · simp [calculateJobMatchScore, catReasons, h1, h2, h3]
  · simp [calculateJobMatchScore, catReasons, h1]

theorem bool_eq_true_of_not_false {b : Bool} (h : ¬(b = false)) : b = true := by
  cases b
  · exact absurd rfl h
  · rfl

theorem aggregateRest_ok (p : UserProfile) (j : Job) (s1 : ℚ)
    (r1 : List String) (h : 20 ≤ s1) :
    (aggregateRest p j s1 r1).suitable = true
      ∧ 40 ≤ (aggregateRest p j s1 r1).score
      ∧ (aggregateRest p j s1 r1).issues = [] := by
  have h40 := restTotal_lb p j s1 h
  refine ⟨?_, ?_, rfl⟩
  · rw [aggregateRest_suitable]
    exact decide_eq_true h40
  · rw [aggregateRest_score]
    refine le_jsRound 40 _ ?_
    push_cast
    exact le_min (by norm_num) h40

/-- C1: for every profile and job, the `MatchResult` of
`calculateJobMatchScore` has `suitable = true` exactly when its returned
`score` field is at least 40 and no hard-filter issue is present (`issues`
is empty). -/
theorem c1_suitable_iff_score_and_no_issue (p : UserProfile) (j : Job) :
    (calculateJobMatchScore p j).suitable = true ↔
      (40 ≤ (calculateJobMatchScore p j).score
        ∧ (calculateJobMatchScore p j).issues = []) := by
  rw [jobMatchScore_eq]
  by_cases h1 : (calculateJobCategoryMatch p j).isMatch = false
  · rw [if_pos h1]
    refine iff_of_false (by simp) ?_
    rintro ⟨ha, -⟩
    norm_num at ha
  · rw [if_neg h1]
    have h1t := bool_eq_true_of_not_false h1
    have hc10 := categoryMatch_score_lb p j h1t
    by_cases h2 : (calculateLocationMatch p j).isMatch = true
    · rw [if_pos h2]
      have hl10 := locationMatch_continue_lb p j (Or.inl h2)
      obtain ⟨hs, hsc, hi⟩ := aggregateRest_ok p j
        ((calculateJobCategoryMatch p j).score + (calculateLocationMatch p j).score)
        (catReasons p j ++ [(calculateLocationMatch p j).reason.getD ""])
        (by linarith)
      exact iff_of_true hs ⟨hsc, hi⟩
    · rw [if_neg h2]
      by_cases h3 : strTruthy (calculateLocationMatch p j).issue = true
      · rw [if_pos h3]
        refine iff_of_false (by simp) ?_
        rintro ⟨ha, -⟩
        norm_num at ha
      · rw [if_neg h3]
        have h3f : strTruthy (calculateLocationMatch p j).issue = false := by
          cases hh : strTruthy (calculateLocationMatch p j).issue
          · rfl
          · exact absurd hh h3
        have hl10 := locationMatch_continue_lb p j (Or.inr h3f)
        obtain ⟨hs, hsc, hi⟩ := aggregateRest_ok p j
          ((calculateJobCategoryMatch p j).score + (calculateLocationMatch p j).score)
          (catReasons p j) (by linarith)
        exact iff_of_true hs ⟨hsc, hi⟩

/-- C2: a hard filter from the category classifier or the location matcher
(`match = false` with a truthy issue) makes `calculateJobMatchScore` return
immediately with score 0, `suitable = false`, that issue as the only entry of
`issues`, and nothing from any later matcher; the location matcher's onsite
soft mismatch (`match = false`, no issue) does not short-circuit and its 10
points are still added to the running sum. -/
theorem c2_hard_filter_short_circuit (p : UserProfile) (j : Job) :
    ((calculateJobCategoryMatch p j).isMatch = false →
      calculateJobMatchScore p j =
        { score := 0, reasons := [],
          issues := [(calculateJobCategoryMatch p j).issue.getD ""],
          suitable := false })
  ∧ ((calculateJobCategoryMatch p j).isMatch = true →
      (calculateLocationMatch p j).isMatch = false →
      strTruthy (calculateLocationMatch p j).issue = true →
      calculateJobMatchScore p j =
        { score := 0, reasons := catReasons p j,
          issues := [(calculateLocationMatch p j).issue.getD ""],
          suitable := false })
  ∧ ((calculateJobCategoryMatch p j).isMatch = true →
      (calculateLocationMatch p j).isMatch = false →
      strTruthy (calculateLocationMatch p j).issue = false →
      (calculateLocationMatch p j).score = 10
        ∧ calculateJobMatchScore p j =
          aggregateRest p j ((calculateJobCategoryMatch p j).score + 10)
            (catReasons p j)) := by
  refine ⟨?_, ?_, ?_⟩
  · intro h1
    rw [jobMatchScore_eq, if_pos h1]
  · intro h1 h2 h3
    rw [jobMatchScore_eq, if_neg (by simp [h1]), if_neg (by simp [h2]),
      if_pos h3]
  · intro h1 h2 h3
    have hsoft : calculateLocationMatch p j =
        { score := 10, isMatch := false,
          reason := some "Remote position (you prefer on-site)",
          issue := none } := by
      rcases locationMatch_cases p j with ⟨s, hc, hs⟩ | hc | ⟨r, hc⟩ | ⟨r, hc⟩ | ⟨r, hc⟩
      · rw [hc] at h3
        simp only at h3
        rw [strTruthy_of_data_ne s hs] at h3
        exact absurd h3 (by simp)
      · exact hc
      · rw [hc] at h2
        simp at h2
      · rw [hc] at h2
        simp at h2
      · rw [hc] at h2
        simp at h2
    constructor
    · rw [hsoft]
    · rw [jobMatchScore_eq, if_neg (by simp [h1]), if_neg (by simp [h2]),
        if_neg (by simp [h3]), hsoft]

/-- C7: the `score` field of every `MatchResult` is an integer (it has type
`ℤ` in this embedding, the image of `Math.round`) lying in `[0, 100]`, for
all profiles and jobs, including ones with absent optional fields. -/
theorem c7_score_bounds (p : UserProfile) (j : Job) :
    0 ≤ (calculateJobMatchScore p j).score
      ∧ (calculateJobMatchScore p j).score ≤ 100 := by
  rw [jobMatchScore_eq]
  by_cases h1 : (calculateJobCategoryMatch p j).isMatch = false
  · rw [if_pos h1]
    exact ⟨by norm_num, by norm_num⟩
  · rw [if_neg h1]
    have hs1 : 0 ≤ (calculateJobCategoryMatch p j).score
        + (calculateLocationMatch p j).score :=
      add_nonneg (categoryMatch_score_nonneg p j) (locationMatch_score_nonneg p j)
    have key : ∀ r1 : List String,
        0 ≤ (aggregateRest p j ((calculateJobCategoryMatch p j).score
              + (calculateLocationMatch p j).score) r1).score
          ∧ (aggregateRest p j ((calculateJobCategoryMatch p j).score
              + (calculateLocationMatch p j).score) r1).score ≤ 100 := by
      intro r1
      rw [aggregateRest_score]
      constructor
      · refine le_jsRound 0 _ ?_
        push_cast
        exact le_min (by norm_num) (restTotal_nonneg p j _ hs1)
      · refine jsRound_le 100 _ ?_
        push_cast
        exact min_le_left _ _
    by_cases h2 : (calculateLocationMatch p j).isMatch = true
    · rw [if_pos h2]
      exact key _
    · rw [if_neg h2]
      by_cases h3 : strTruthy (calculateLocationMatch p j).issue = true
      · rw [if_pos h3]
        exact ⟨by norm_num, by norm_num⟩
      · rw [if_neg h3]
        exact key _

theorem mem_if_singleton {c : Prop} [Decidable c] {x r : String}
    (h : r ∈ if c then [x] else []) : c ∧ r = x := by
  split at h
  · next hc => exact ⟨hc, by simpa using h⟩
  · simp at h

theorem mem_if_list {c : Prop} [Decidable c] {l : List String} {r : String}
    (h : r ∈ if c then l else []) : r ∈ l := by
  split at h
  · exact h
  · simp at h

theorem mem_catReasons {p : UserProfile} {j : Job} {r : String}
    (h : r ∈ catReasons p j) :
    (calculateJobCategoryMatch p j).reason = some r := by
  unfold catReasons at h
  split at h
  · next ht =>
    obtain ⟨s, hs, hne⟩ := strTruthy_exists ht
    rw [hs] at h ⊢
    simp at h
    rw [h]
  · simp at h

/-- C9: every string of a `MatchResult`'s `reasons` comes from a sub-matcher
that returned `match = true` or from the skills matcher's reason list, and
every string of `issues` comes from a hard-filtering (`match = false`)
category or location result; in particular the experience matcher's
cautionary reasons and the location matcher's onsite soft-mismatch reason
(both produced with `match = false`) never appear. -/
theorem c9_reason_provenance (p : UserProfile) (j : Job) :
    (∀ r ∈ (calculateJobMatchScore p j).reasons,
      ((calculateJobCategoryMatch p j).isMatch = true
          ∧ (calculateJobCategoryMatch p j).reason = some r)
        ∨ ((calculateLocationMatch p j).isMatch = true
          ∧ (calculateLocationMatch p j).reason.getD "" = r)
        ∨ ((calculateRemoteMatch p j).isMatch = true
          ∧ (calculateRemoteMatch p j).reason.getD "" = r)
        ∨ r ∈ (calculateSkillsMatch p j).reasons
        ∨ ((calculateExperienceMatch p j).isMatch = true
          ∧ (calculateExperienceMatch p j).reason.getD "" = r)
        ∨ ((calculateJobTypeMatch p j).isMatch = true
          ∧ (calculateJobTypeMatch p j).reason.getD "" = r))
  ∧ (∀ s ∈ (calculateJobMatchScore p j).issues,
      ((calculateJobCategoryMatch p j).isMatch = false
          ∧ (calculateJobCategoryMatch p j).issue.getD "" = s)
        ∨ ((calculateLocationMatch p j).isMatch = false
          ∧ (calculateLocationMatch p j).issue.getD "" = s)) := by
  constructor
  · intro r hr
    rw [jobMatchScore_eq] at hr
    by_cases h1 : (calculateJobCategoryMatch p j).isMatch = false
    · rw [if_pos h1] at hr
      simp at hr
    · rw [if_neg h1] at hr
      have h1t := bool_eq_true_of_not_false h1
      by_cases h2 : (calculateLocationMatch p j).isMatch = true
      · rw [if_pos h2] at hr
        rw [aggregateRest_reasons] at hr
        simp only [List.mem_append] at hr
        rcases hr with ((((hr | hr) | hr) | hr) | hr) | hr
        · exact Or.inl ⟨h1t, mem_catReasons hr⟩
        · simp at hr
          exact Or.inr (Or.inl ⟨h2, hr.symm⟩)
        · obtain ⟨hc, hx⟩ := mem_if_singleton hr
          exact Or.inr (Or.inr (Or.inl ⟨hc, hx.symm⟩))
        · exact Or.inr (Or.inr (Or.inr (Or.inl (mem_if_list hr))))
        · obtain ⟨hc, hx⟩ := mem_if_singleton hr
          exact Or.inr (Or.inr (Or.inr (Or.inr (Or.inl ⟨hc, hx.symm⟩))))
        · obtain ⟨hc, hx⟩ := mem_if_singleton hr
          exact Or.inr (Or.inr (Or.inr (Or.inr (Or.inr ⟨hc, hx.symm⟩))))
      · rw [if_neg h2] at hr
        by_cases h3 : strTruthy (calculateLocationMatch p j).issue = true
        · rw [if_pos h3] at hr
          simp only at hr
          exact Or.inl ⟨h1t, mem_catReasons hr⟩
        · rw [if_neg h3] at hr
          rw [aggregateRest_reasons] at hr
          simp only [List.mem_append] at hr
          rcases hr with (((hr | hr) | hr) | hr) | hr
          · exact Or.inl ⟨h1t, mem_catReasons hr⟩
          · obtain ⟨hc, hx⟩ := mem_if_singleton hr
            exact Or.inr (Or.inr (Or.inl ⟨hc, hx.symm⟩))
          · exact Or.inr (Or.inr (Or.inr (Or.inl (mem_if_list hr))))
          · obtain ⟨hc, hx⟩ := mem_if_singleton hr
            exact Or.inr (Or.inr (Or.inr (Or.inr (Or.inl ⟨hc, hx.symm⟩))))
          · obtain ⟨hc, hx⟩ := mem_if_singleton hr
            exact Or.inr (Or.inr (Or.inr (Or.inr (Or.inr ⟨hc, hx.symm⟩))))
  · intro s hs
    rw [jobMatchScore_eq] at hs
    by_cases h1 : (calculateJobCategoryMatch p j).isMatch = false
    · rw [if_pos h1] at hs
      simp at hs
      exact Or.inl ⟨h1, hs.symm⟩
    · rw [if_neg h1] at hs
      by_cases h2 : (calculateLocationMatch p j).isMatch = true
      · rw [if_pos h2] at hs
        rw [aggregateRest_issues] at hs
        simp at hs
      · rw [if_neg h2] at hs
        have h2f : (calculateLocationMatch p j).isMatch = false := by
          cases hh : (calculateLocationMatch p j).isMatch
          · rfl
          · exact absurd hh h2
        by_cases h3 : strTruthy (calculateLocationMatch p j).issue = true
        · rw [if_pos h3] at hs
          simp at hs
          exact Or.inr ⟨h2f, hs.symm⟩
        · rw [if_neg h3] at hs
          rw [aggregateRest_issues] at hs
          simp at hs

/-- C5: the skills score is `min(25, (matchedCount / totalSkillCount) * 25)`
over the concatenated case-folded primary+secondary skill list
(`userSkillsOf`), a skill matching iff it occurs in the case-folded
title-plus-description text (`matchedSkillsOf`); with zero skills it is
exactly 0 — a well-defined rational, never `NaN` and never an error. -/
theorem c5_skills_score_formula (p : UserProfile) (j : Job) :
    ((userSkillsOf p).length = 0 → (calculateSkillsMatch p j).score = 0)
  ∧ ((userSkillsOf p).length ≠ 0 →
      (calculateSkillsMatch p j).score =
        min 25 (((matchedSkillsOf p j).length : ℚ)
          / ((userSkillsOf p).length : ℚ) * 25)) := by
  constructor
  · intro h
    rw [skillsScore_formula, if_pos h]
  · intro h
    rw [skillsScore_formula, if_neg h]

/-- C6: appending to the profile one extra skill whose case-folded text
occurs in the job's title-plus-description text never decreases the skills
score. -/
theorem c6_skills_monotone (p : UserProfile) (j : Job) (sk : String)
    (h : strIncludes (jobTextOf j) (lc sk) = true) :
    (calculateSkillsMatch p j).score ≤
      (calculateSkillsMatch (addSkill p sk) j).score := by
  have hU : userSkillsOf (addSkill p sk) = userSkillsOf p ++ [lc sk] := by
    simp [userSkillsOf, addSkill, List.map_append, List.append_assoc]
  have hM : matchedSkillsOf (addSkill p sk) j = matchedSkillsOf p j ++ [lc sk] := by
    unfold matchedSkillsOf
    rw [hU, List.filter_append]
    congr 1
    simp [List.filter, lc_idem, h]
  have hmt : (matchedSkillsOf p j).length ≤ (userSkillsOf p).length := by
    unfold matchedSkillsOf
    exact List.length_filter_le _ _
  have hMl : (matchedSkillsOf (addSkill p sk) j).length
      = (matchedSkillsOf p j).length + 1 := by
    rw [hM]
    simp
  have hUl : (userSkillsOf (addSkill p sk)).length
      = (userSkillsOf p).length + 1 := by
    rw [hU]
    simp
  rw [skillsScore_formula p j, skillsScore_formula (addSkill p sk) j, hMl, hUl]
  by_cases ht : (userSkillsOf p).length = 0
  · rw [if_pos ht, if_neg (by omega)]
    refine le_min (by norm_num) ?_
    positivity
  · rw [if_neg ht, if_neg (by omega)]
    have htQ : (0 : ℚ) < ((userSkillsOf p).length : ℚ) := by
      exact_mod_cast Nat.pos_of_ne_zero ht
    have hmtQ : ((matchedSkillsOf p j).length : ℚ) ≤ ((userSkillsOf p).length : ℚ) := by
      exact_mod_cast hmt
    refine min_le_min (le_refl 25) ?_
    refine mul_le_mul_of_nonneg_right ?_ (by norm_num)
    rw [div_le_div_iff₀ htQ (by positivity)]
    push_cast
    nlinarith [hmtQ]

/-- C4 (amended): the location matcher's score is always one of
0, 10, 15, 20, 25 — the contract's claimed set {0, 15, 20, 25} plus the 10
of the onsite soft-mismatch branch. -/
theorem c4_location_score_values (p : UserProfile) (j : Job) :
    (calculateLocationMatch p j).score = 0
  ∨ (calculateLocationMatch p j).score = 10
  ∨ (calculateLocationMatch p j).score = 15
  ∨ (calculateLocationMatch p j).score = 20
  ∨ (calculateLocationMatch p j).score = 25 := by
  rcases locationMatch_cases p j with ⟨s, hc, _⟩ | hc | ⟨r, hc⟩ | ⟨r, hc⟩ | ⟨r, hc⟩ <;>
    rw [hc] <;> simp

/-- C4 counterexample: an onsite-preferring profile against a remote-only job
drives the location matcher through its soft-mismatch branch, returning
score 10, which is outside the claimed set {0, 15, 20, 25}. -/
theorem c4_counterexample :
    (calculateLocationMatch pOnsite jRemote).score = 10
  ∧ ¬((calculateLocationMatch pOnsite jRemote).score = 0
      ∨ (calculateLocationMatch pOnsite jRemote).score = 15
      ∨ (calculateLocationMatch pOnsite jRemote).score = 20
      ∨ (calculateLocationMatch pOnsite jRemote).score = 25) := by
  have h : (calculateLocationMatch pOnsite jRemote).score = 10 := by
    with_unfolding_all rfl
  refine ⟨h, ?_⟩
  rw [h]
  norm_num

theorem getMatchedJobs_eq (p : UserProfile) (jobs : List Job) (o : MatchOptions) :
    getMatchedJobs p jobs o =
      { jobs := (sortEnriched o (passingJobs p jobs o)).take o.maxResults,
        totalMatches :=
          ((sortEnriched o (passingJobs p jobs o)).take o.maxResults).length,
        totalJobs := jobs.length,
        matchRate := ratePercent
          ((sortEnriched o (passingJobs p jobs o)).take o.maxResults).length
          jobs.length } := rfl

theorem sortEnriched_perm (o : MatchOptions) (l : List EnrichedJob) :
    List.Perm (sortEnriched o l) l := by
  unfold sortEnriched
  split
  · exact List.perm_insertionSort _ _
  · exact List.perm_insertionSort _ _

theorem sortEnriched_length (o : MatchOptions) (l : List EnrichedJob) :
    (sortEnriched o l).length = l.length :=
  (sortEnriched_perm o l).length_eq

theorem sortEnriched_sorted (o : MatchOptions) (l : List EnrichedJob) :
    List.Pairwise (sortRel o) (sortEnriched o l) := by
  unfold sortEnriched
  split
  · next hsc =>
    haveI : IsTotal EnrichedJob (fun a b => b.matchScore ≤ a.matchScore) :=
      ⟨fun a b => le_total b.matchScore a.matchScore⟩
    haveI : IsTrans EnrichedJob (fun a b => b.matchScore ≤ a.matchScore) :=
      ⟨fun a b c hab hbc => le_trans hbc hab⟩
    have hs := List.sorted_insertionSort
      (fun a b : EnrichedJob => b.matchScore ≤ a.matchScore) l
    exact hs.imp (fun hab => by simp only [sortRel]; rw [if_pos hsc]; exact hab)
  · next hsc =>
    haveI : IsTotal EnrichedJob (fun a b => b.job.postedDate ≤ a.job.postedDate) :=
      ⟨fun a b => le_total b.job.postedDate a.job.postedDate⟩
    haveI : IsTrans EnrichedJob (fun a b => b.job.postedDate ≤ a.job.postedDate) :=
      ⟨fun a b c hab hbc => le_trans hbc hab⟩
    have hs := List.sorted_insertionSort
      (fun a b : EnrichedJob => b.job.postedDate ≤ a.job.postedDate) l
    exact hs.imp (fun hab => by simp only [sortRel]; rw [if_neg hsc]; exact hab)

/-- C10: on an empty job collection `getMatchedJobs` returns no jobs, zero
counts, and a `matchRate` that is the JS `NaN` (modelled `none`) produced by
the unguarded `0 / 0` division — not 0. -/
theorem c10_empty_collection_nan (p : UserProfile) (o : MatchOptions) :
    getMatchedJobs p [] o =
      { jobs := [], totalMatches := 0, totalJobs := 0, matchRate := none } := by
  rw [getMatchedJobs_eq]
  have hp : passingJobs p [] o = [] := rfl
  rw [hp]
  have hs : sortEnriched o [] = [] := by
    unfold sortEnriched
    split <;> rfl
  rw [hs]
  simp [ratePercent]

/-- C3 (amended): `getMatchedJobs` scores every job, keeps exactly those with
`suitable = true` and `matchScore ≥ minScore` (soundness plus the cardinality
and sub-permutation clauses below), sorts them by the comparator `sortRel`
(descending score when `sortBy = "score"`, descending posted date otherwise),
truncates to `maxResults` — the returned list extends, by some `rest` of
discarded candidates, to a `sortRel`-sorted permutation of all candidates, so
it is the initial, top-ranked segment of the sorted candidate list — and
reports `totalMatches` as the length of the **truncated** list (not the
candidate count the claim states) and
`matchRate = round((truncatedCount / totalJobs) * 100)` (`NaN`, modelled
`none`, when `totalJobs = 0`). -/
theorem c3_matched_jobs_batch (p : UserProfile) (jobs : List Job)
    (o : MatchOptions) :
    (∀ e ∈ (getMatchedJobs p jobs o).jobs,
      e.suitable = true ∧ o.minScore ≤ e.matchScore ∧ e.job ∈ jobs)
  ∧ (getMatchedJobs p jobs o).jobs.length
      = min o.maxResults (passingJobs p jobs o).length
  ∧ List.Pairwise (sortRel o) (getMatchedJobs p jobs o).jobs
  ∧ List.Subperm (getMatchedJobs p jobs o).jobs (passingJobs p jobs o)
  ∧ (∃ rest : List EnrichedJob,
      List.Perm ((getMatchedJobs p jobs o).jobs ++ rest) (passingJobs p jobs o)
        ∧ List.Pairwise (sortRel o) ((getMatchedJobs p jobs o).jobs ++ rest))
  ∧ (getMatchedJobs p jobs o).totalMatches = (getMatchedJobs p jobs o).jobs.length
  ∧ (getMatchedJobs p jobs o).totalJobs = jobs.length
  ∧ (getMatchedJobs p jobs o).matchRate
      = ratePercent (getMatchedJobs p jobs o).jobs.length jobs.length := by
  rw [getMatchedJobs_eq]
  refine ⟨?_, ?_, ?_, ?_, ?_, rfl, rfl, rfl⟩
  · intro e he
    simp only at he
    have h1 : e ∈ sortEnriched o (passingJobs p jobs o) :=
      List.take_subset _ _ he
    have h2 : e ∈ passingJobs p jobs o :=
      (sortEnriched_perm o (passingJobs p jobs o)).mem_iff.mp h1
    have hp : passesFilter o e = true := List.of_mem_filter h2
    have h3 : e ∈ scoredJobs p jobs := List.mem_of_mem_filter h2
    obtain ⟨a, ha, hae⟩ := List.mem_map.mp h3
    have hj : e.job = a := by rw [← hae]; rfl
    unfold passesFilter at hp
    rw [Bool.and_eq_true] at hp
    exact ⟨hp.1, of_decide_eq_true hp.2, by rw [hj]; exact ha⟩
  · simp only
    rw [List.length_take, sortEnriched_length]
  · simp only
    exact List.Pairwise.sublist (List.take_sublist _ _) (sortEnriched_sorted o _)
  · simp only
    exact ((List.take_sublist _ _).subperm).trans (sortEnriched_perm o _).subperm
  · refine ⟨(sortEnriched o (passingJobs p jobs o)).drop o.maxResults, ?_, ?_⟩
    · simp only
      rw [List.take_append_drop]
      exact sortEnriched_perm o _
    · simp only
      rw [List.take_append_drop]
      exact sortEnriched_sorted o _

/-- C3 counterexample: two jobs pass the filter, but with `maxResults = 1`
the source reports `totalMatches = 1` (the truncated count) and
`matchRate = 50`, where the claim's reading (candidate count 2 of 2 jobs)
would give `totalMatches = 2` and `matchRate = 100`. -/
theorem c3_counterexample :
    (passingJobs pA [jA, jB] opts1).length = 2
  ∧ (getMatchedJobs pA [jA, jB] opts1).totalMatches = 1
  ∧ (getMatchedJobs pA [jA, jB] opts1).matchRate = some 50 := by
  refine ⟨?_, ?_, ?_⟩
  · with_unfolding_all rfl
  · with_unfolding_all rfl
  · with_unfolding_all rfl

/-- C8: the engine is a pure function of its inputs — it is incapable of
mutating the profile or the job collection in this embedding — and every
record `getMatchedJobs` returns carries an unmodified member of the input
collection as its `job` payload, with the match fields attached to that
fresh enriched copy (`e = enrichJob p e.job`). -/
theorem c8_engine_preserves_inputs (p : UserProfile) (jobs : List Job)
    (o : MatchOptions) :
    ∀ e ∈ (getMatchedJobs p jobs o).jobs, e.job ∈ jobs ∧ e = enrichJob p e.job := by
  intro e he
  rw [getMatchedJobs_eq] at he
  simp only at he
  have h1 : e ∈ sortEnriched o (passingJobs p jobs o) :=
    List.take_subset _ _ he
  have h2 : e ∈ passingJobs p jobs o :=
    (sortEnriched_perm o (passingJobs p jobs o)).mem_iff.mp h1
  have h3 : e ∈ scoredJobs p jobs := List.mem_of_mem_filter h2
  obtain ⟨a, ha, hae⟩ := List.mem_map.mp h3
  have hj : e.job = a := by rw [← hae]; rfl
  constructor
  · rw [hj]
    exact ha
  · rw [hj, ← hae]

/-- Witness for C8 at a concrete profile and one-job collection. -/
theorem c8_witness : eA.job ∈ [jA] ∧ eA = enrichJob pA eA.job := by
  have hj : (getMatchedJobs pA [jA] defaultMatchOptions).jobs = [eA] := by
    with_unfolding_all rfl
  exact c8_engine_preserves_inputs pA [jA] defaultMatchOptions eA
    (by rw [hj]; exact List.mem_singleton_self eA)

/-- Witness for C6 at a concrete profile, job and added skill. -/
theorem c6_witness :
    (calculateSkillsMatch pOnsite jA).score ≤
      (calculateSkillsMatch (addSkill pOnsite "react") jA).score :=
  c6_skills_monotone pOnsite jA "react" (by decide)
